import Mathlib

/-!
Shallow embedding of the order lifecycle, pricing and analytics core of the
shreegraphicsdesign backend (the Express route handlers of the orders router,
and the admin analytics controller).  JavaScript numbers carrying money are
modelled as rationals; JavaScript truthiness on strings and numbers is
modelled explicitly (absent and empty string are falsy, absent and zero are
falsy); fallible handlers return `Except ApiError`, paired with the resulting
database (list of persisted orders) to make persistence effects visible.
-/

deriving instance DecidableEq for Except

namespace SGD

/-- JavaScript truthiness of an optional string: `undefined` and `""` are falsy. -/
def strTruthy : Option String → Bool
  | none => false
  | some s => s ≠ ""

/-- JavaScript `a || b` where `a` is an optional string (absent or empty falls back). -/
def jsOrStr (a : Option String) (b : String) : String :=
  match a with
  | some s => if s = "" then b else s
  | none => b

/-- JavaScript `a || b` on a plain string (empty falls back). -/
def jsOrStrV (a b : String) : String :=
  if a = "" then b else a

/-- JavaScript `a || null` on an optional string: a falsy value becomes null. -/
def jsOrNull : Option String → Option String
  | some s => if s = "" then none else some s
  | none => none

/-- JavaScript `a || b` where `a` is an optional number: absent or `0` falls back. -/
def jsOrNat (a : Option Nat) (b : Nat) : Nat :=
  match a with
  | some n => if n = 0 then b else n
  | none => b

/-- The validator's trim sanitizer: strip whitespace from both ends. -/
def jsTrim (s : String) : String :=
  String.mk (((s.data.dropWhile Char.isWhitespace).reverse.dropWhile
    Char.isWhitespace).reverse)

/-- A catalog product: identifier, display name, and the per-tier price map
    (`product.price[tier]` in the source). -/
structure Product where
  id : String
  name : String
  price : List (String × ℚ)
deriving Repr, DecidableEq

/-- `product.price[tier]`: key lookup in the per-tier price map. -/
def priceLookup (m : List (String × ℚ)) (tier : String) : Option ℚ :=
  (m.find? (fun p => p.1 = tier)).map Prod.snd

/-- Populate-time product lookup over the product collection: resolves a
    stored (already cast-valid) reference to its document or null. -/
def findProductById (ps : List Product) (pid : String) : Option Product :=
  ps.find? (fun p => p.id = pid)

/-- Whether a reference string can be cast to a system ObjectId
    (24 hexadecimal characters). -/
def isValidObjectId (s : String) : Bool :=
  s.length == 24 && s.data.all (fun c =>
    c.isDigit || ('a' ≤ c && c ≤ 'f') || ('A' ≤ c && c ≤ 'F'))

/-- `Product.findById` as the handlers call it on a raw request reference:
    throws a CastError (modelled `.error ()`) when the reference cannot be
    cast to an ObjectId, otherwise the product with that id, if any. -/
def productFindById (ps : List Product) (pid : String) :
    Except Unit (Option Product) :=
  if isValidObjectId pid then .ok (ps.find? (fun p => p.id = pid))
  else .error ()

/-- One flattened customization choice (`{optionName, selectedValue}`). -/
structure Customization where
  optionName : String
  selectedValue : String
deriving Repr, DecidableEq

/-- An embedded order item exactly as the createOrder handler pushes it:
    product ref, the resolved tier stored as `packageType`, quantity,
    unit price copied from the tier, flattened customizations. -/
structure OrderItem where
  product : String
  packageType : String
  quantity : Nat
  price : ℚ
  customizations : List Customization
deriving Repr, DecidableEq

/-- The persisted derived pricing record `{subtotal, tax, total}`. -/
structure Pricing where
  subtotal : ℚ
  tax : ℚ
  total : ℚ
deriving Repr, DecidableEq

/-- One communication-log entry `{sender, content, type, createdAt}`. -/
structure CommEntry where
  sender : String
  content : String
  type : String
  createdAt : Nat
deriving Repr, DecidableEq

/-- The `shippingAddress` object of a request body; every field may be absent. -/
structure ShippingInput where
  fullName : Option String
  email : Option String
  phone : Option String
  address : Option String
  city : Option String
  state : Option String
  pincode : Option String
  country : Option String
deriving Repr, DecidableEq

/-- The denormalized shipping snapshot the handler stores on the order
    (`street := shippingAddress.address`, `zipCode := shippingAddress.pincode`,
    `country` defaulting to "India"); optional input fields stay optional. -/
structure ShippingRecord where
  fullName : String
  email : String
  phone : String
  street : Option String
  city : Option String
  state : Option String
  zipCode : Option String
  country : String
deriving Repr, DecidableEq

/-- The `paymentInfo` subdocument written at creation. -/
structure PaymentInfo where
  method : Option String
  manualTransactionId : Option String
  paymentScreenshot : Option String
  paymentStatus : String
deriving Repr, DecidableEq

/-- A persisted Order document.  `id` models the system ObjectId (rendered as
    its 24-hex-character string), `orderNumber` the human-readable alternate
    key.  `taxAmount`, `shippingCost` and `totalAmount` are top-level schema
    fields read by the analytics aggregations and the CSV export; the Order
    schema file itself is not part of the sources, so they are carried here as
    plain fields (the creation handler leaves them at their defaults).
    `createdAtDay`/`updatedAtDay` model the storage timestamps at the daily
    granularity the aggregations and CSV export use (format YYYY-MM-DD). -/
structure Order where
  id : String
  orderNumber : String
  customer : String
  items : List OrderItem
  pricing : Pricing
  shippingAddress : ShippingRecord
  paymentInfo : PaymentInfo
  status : String
  communication : List CommEntry
  actualDeliveryDate : Option Nat
  taxAmount : ℚ
  shippingCost : ℚ
  totalAmount : Option ℚ
  createdAtDay : String
  updatedAtDay : String
deriving Repr, DecidableEq

/-- The error taxonomy of the handlers, by HTTP class:
    400 validation, 404 not found, 403 forbidden, 500 caught exception. -/
inductive ApiError where
  | validation (msg : String)
  | notFound (msg : String)
  | forbidden (msg : String)
  | serverError
deriving Repr, DecidableEq

/-- HTTP status code of each error class. -/
def httpStatus : ApiError → Nat
  | .validation _ => 400
  | .notFound _ => 404
  | .forbidden _ => 403
  | .serverError => 500

/-- One entry of the request body's `items` array. -/
structure ItemInput where
  product : String
  tier : Option String
  packageType : Option String
  quantity : Option Nat
  customization : List (String × String)
deriving Repr, DecidableEq

/-- `item.tier || item.packageType || "base"`. -/
def resolveTier (it : ItemInput) : String :=
  jsOrStr it.tier (jsOrStr it.packageType "base")

/-- The body of the createOrder item loop.  `Product.findById` throws a
    CastError for a reference that is not castable to an ObjectId, and the
    handler's catch-all answers it as the generic 500 (`.serverError`); a
    castable but unknown reference is the 400 product-not-found response.
    Then resolve the tier and its price (failing when the tier key is absent
    or its price falsy), apply the quantity default, and build the order
    item with the price copied. -/
def resolveItem (products : List Product) (it : ItemInput) :
    Except ApiError OrderItem :=
  match productFindById products it.product with
  | .error _ => .error .serverError
  | .ok none =>
    .error (.validation ("Product " ++ it.product ++ " not found"))
  | .ok (some p) =>
    match priceLookup p.price (resolveTier it) with
    | none =>
      .error (.validation
        ("Pricing tier '" ++ resolveTier it ++ "' not found"))
    | some tp =>
      if tp = 0 then
        .error (.validation
          ("Pricing tier '" ++ resolveTier it ++ "' not found"))
      else
        .ok { product := p.id
              packageType := resolveTier it
              quantity := jsOrNat it.quantity 1
              price := tp
              customizations := it.customization.map (fun kv => ⟨kv.1, kv.2⟩) }

/-- The whole item loop: left-to-right, short-circuiting on the first failing
    item, accumulating the built items and the running subtotal. -/
def resolveItems (products : List Product) :
    List ItemInput → Except ApiError (List OrderItem × ℚ)
  | [] => .ok ([], 0)
  | it :: rest =>
    match resolveItem products it with
    | .error e => .error e
    | .ok oi =>
      match resolveItems products rest with
      | .error e => .error e
      | .ok (ois, sub) => .ok (oi :: ois, oi.price * (oi.quantity : ℚ) + sub)

/-- A createOrder request body after the optional multipart JSON extraction. -/
structure CreateOrderBody where
  items : Option (List ItemInput)
  shippingAddress : Option ShippingInput
  paymentMethod : Option String
  manualTransactionId : Option String
  paymentStatus : Option String
  paymentScreenshot : Option String
deriving Repr, DecidableEq

/-- The POST / createOrder handler.  Returns the handler outcome together with
    the resulting order collection.  When `shippingAddress` is absent the
    source dereferences `shippingAddress.fullName` on `undefined`, which
    throws and is answered by the catch-all 500 branch, modelled as
    `.serverError`.  `newId`, `newOrderNumber` and `today` stand for the
    storage-assigned identity and timestamps. -/
def createOrder (db : List Order) (products : List Product) (userId : String)
    (body : CreateOrderBody) (newId newOrderNumber today : String) :
    Except ApiError Order × List Order :=
  match body.items with
  | none => (.error (.validation "Order must contain at least one item"), db)
  | some its =>
    if its.isEmpty then
      (.error (.validation "Order must contain at least one item"), db)
    else
      match body.shippingAddress with
      | none => (.error .serverError, db)
      | some sa =>
        if ¬ strTruthy sa.fullName then
          (.error (.validation "Full name is required"), db)
        else if ¬ strTruthy sa.email then
          (.error (.validation "Valid email is required"), db)
        else if ¬ strTruthy sa.phone then
          (.error (.validation "Valid phone number is required"), db)
        else
          match resolveItems products its with
          | .error e => (.error e, db)
          | .ok (ois, subtotal) =>
            let tax := subtotal * (1 / 10)
            let order : Order :=
              { id := newId
                orderNumber := newOrderNumber
                customer := userId
                items := ois
                pricing := ⟨subtotal, tax, subtotal + tax⟩
                shippingAddress :=
                  { fullName := sa.fullName.getD ""
                    email := sa.email.getD ""
                    phone := sa.phone.getD ""
                    street := sa.address
                    city := sa.city
                    state := sa.state
                    zipCode := sa.pincode
                    country := jsOrStr sa.country "India" }
                paymentInfo :=
                  { method := body.paymentMethod
                    manualTransactionId := jsOrNull body.manualTransactionId
                    paymentScreenshot := jsOrNull body.paymentScreenshot
                    paymentStatus := jsOrStr body.paymentStatus "pending" }
                status := "pending"
                communication := []
                actualDeliveryDate := none
                taxAmount := 0
                shippingCost := 0
                totalAmount := none
                createdAtDay := today
                updatedAtDay := today }
            (.ok order, db ++ [order])

/-- The enumerated status set accepted by the status-update validator. -/
def validStatuses : List String :=
  ["pending", "confirmed", "in-progress", "review", "revision", "completed",
   "cancelled"]

/-- Communication types accepted by the communication validator. -/
def validCommTypes : List String :=
  ["message", "file_upload", "revision_request", "status_update"]

/-- The optional-message validator: a supplied message, after trimming, may
    not exceed 500 characters. -/
def msgTooLong : Option String → Bool
  | some m => m.length > 500
  | none => false

/-- The optional-type validator of the communication route. -/
def commTypeInvalid : Option String → Bool
  | some t => ¬ validCommTypes.contains t
  | none => false

/-- `Order.findById`: throws (modelled `.error ()`) when the key cannot be
    cast to an ObjectId, otherwise the order with that id, if any. -/
def findById (db : List Order) (key : String) : Except Unit (Option Order) :=
  if isValidObjectId key then .ok (db.find? (fun o => o.id = key))
  else .error ()

/-- `Order.findOne({orderNumber})`. -/
def findByOrderNumber (db : List Order) (key : String) : Option Order :=
  db.find? (fun o => o.orderNumber = key)

/-- The status-update handler's lookup: `findById` with the thrown-cast and
    the not-found cases both falling back to the order-number lookup. -/
def lookupOrderWithFallback (db : List Order) (key : String) : Option Order :=
  match findById db key with
  | .error _ => findByOrderNumber db key
  | .ok none => findByOrderNumber db key
  | .ok (some o) => some o

/-- Write back one updated order document in place. -/
def updateOrder (db : List Order) (o' : Order) : List Order :=
  db.map (fun o => if o.id = o'.id then o' else o)

/-- The PUT /:id/status handler.  Middleware order is faithful: the admin
    gate runs first, then the express-validator checks (status in the
    enumerated set; optional message trimmed, at most 500 characters) are
    tested before the order lookup.  On success the status is overwritten
    unconditionally, one communication entry is appended (caller note if
    truthy, else the auto-generated message), and `actualDeliveryDate` is
    stamped only when the new status is completed and it was unset. -/
def setStatus (db : List Order) (role senderId key status : String)
    (message : Option String) (now : Nat) (today : String) :
    Except ApiError Order × List Order :=
  if role ≠ "admin" then
    (.error (.forbidden "User role admin is not authorized"), db)
  else
    let msg := message.map (fun s => jsTrim s)
    if ¬ validStatuses.contains status then
      (.error (.validation "Validation failed"), db)
    else if msgTooLong msg then
      (.error (.validation "Validation failed"), db)
    else
      match lookupOrderWithFallback db key with
      | none => (.error (.notFound "Order not found"), db)
      | some o =>
        let content :=
          jsOrStr msg ("Order status changed from " ++ o.status ++ " to "
            ++ status)
        let o' : Order :=
          { o with
            status := status
            communication := o.communication
              ++ [⟨senderId, content, "message", now⟩]
            actualDeliveryDate :=
              if status = "completed" ∧ o.actualDeliveryDate = none then
                some now
              else o.actualDeliveryDate
            updatedAtDay := today }
        (.ok o', updateOrder db o')

/-- The PUT /:id/cancel handler.  Lookup is by `findById` alone (a key that
    is not castable to an ObjectId throws and lands in the catch-all 500
    branch); owner-or-admin gate; already completed or cancelled orders are
    rejected with a 400 and left untouched; otherwise status is forced to
    cancelled and one role-dependent communication entry is appended. -/
def cancel (db : List Order) (role userId key : String) (now : Nat)
    (today : String) : Except ApiError Order × List Order :=
  match findById db key with
  | .error _ => (.error .serverError, db)
  | .ok none => (.error (.notFound "Order not found"), db)
  | .ok (some o) =>
    if role ≠ "admin" ∧ o.customer ≠ userId then
      (.error (.forbidden "Access denied. You can only cancel your own orders."),
       db)
    else if o.status = "completed" ∨ o.status = "cancelled" then
      (.error (.validation "Order cannot be cancelled in its current status"),
       db)
    else
      let o' : Order :=
        { o with
          status := "cancelled"
          communication := o.communication
            ++ [⟨userId,
                 "Order cancelled by "
                   ++ (if role = "admin" then "admin" else "customer"),
                 "message", now⟩]
          updatedAtDay := today }
      (.ok o', updateOrder db o')

/-- The POST /:id/communication handler.  Validator checks (trimmed message
    length 1..1000, optional type in the enumerated set) run before the
    lookup, which is by `findById` alone, as in cancel. -/
def addMessage (db : List Order) (role userId key message : String)
    (mtype : Option String) (now : Nat) :
    Except ApiError Order × List Order :=
  let m := jsTrim message
  if m.length < 1 ∨ m.length > 1000 then
    (.error (.validation "Validation failed"), db)
  else if commTypeInvalid mtype then
    (.error (.validation "Validation failed"), db)
  else
    match findById db key with
    | .error _ => (.error .serverError, db)
    | .ok none => (.error (.notFound "Order not found"), db)
    | .ok (some o) =>
      if role ≠ "admin" ∧ o.customer ≠ userId then
        (.error (.forbidden
          "Access denied. You can only communicate on your own orders."), db)
      else
        let o' : Order :=
          { o with
            communication := o.communication
              ++ [⟨userId, m, mtype.getD "message", now⟩] }
        (.ok o', updateOrder db o')

/-- The per-order revenue value the analytics controller's aggregations
    project: `Σ item.price*item.quantity + taxAmount + shippingCost`. -/
def recomputedTotal (o : Order) : ℚ :=
  (o.items.map (fun i => i.price * (i.quantity : ℚ))).sum
    + o.taxAmount + o.shippingCost

/-- The distinct day keys of the order collection, in first-seen order. -/
def orderDays (db : List Order) : List String :=
  (db.map (fun o => o.createdAtDay)).dedup

/-- The distinct month keys (YYYY-MM prefix of the day key). -/
def orderMonths (db : List Order) : List String :=
  (db.map (fun o => o.createdAtDay.take 7)).dedup

/-- The analytics controller's daily revenue series: per calendar day, the
    sum of the recomputed per-order totals. -/
def analyticsRevenueDaily (db : List Order) : List (String × ℚ) :=
  (orderDays db).map (fun d =>
    (d, ((db.filter (fun o => o.createdAtDay = d)).map recomputedTotal).sum))

/-- The analytics controller's monthly revenue series. -/
def analyticsRevenueMonthly (db : List Order) : List (String × ℚ) :=
  (orderMonths db).map (fun m =>
    (m, ((db.filter (fun o => o.createdAtDay.take 7 = m)).map
      recomputedTotal).sum))

/-- The analytics controller's total revenue: the recomputed per-order
    totals summed over every order. -/
def analyticsTotalRevenue (db : List Order) : ℚ :=
  (db.map recomputedTotal).sum

/-- The admin stats endpoint's revenue figure: the stored `pricing.total`
    summed over completed orders. -/
def adminStatsTotalRevenue (db : List Order) : ℚ :=
  ((db.filter (fun o => o.status = "completed")).map
    (fun o => o.pricing.total)).sum

/-- The admin stats endpoint's monthly trend revenue for one month bucket:
    the stored `pricing.total` summed over the bucket's orders. -/
def adminStatsTrendRevenue (db : List Order) (month : String) : ℚ :=
  ((db.filter (fun o => o.createdAtDay.take 7 = month)).map
    (fun o => o.pricing.total)).sum

/-- A user document as the populate of `customer` exposes it. -/
structure User where
  id : String
  name : String
  email : String
deriving Repr, DecidableEq

/-- Populate the customer reference. -/
def findUserById (users : List User) (uid : String) : Option User :=
  users.find? (fun u => u.id = uid)

/-- The global-regex replacement `.replace(/"/g, '""')`: every double-quote
    character is doubled, character by character. -/
def doubleQuotes : List Char → List Char
  | [] => []
  | c :: cs =>
    if c = '"' then '"' :: '"' :: doubleQuotes cs else c :: doubleQuotes cs

/-- One emitted CSV field: the raw value with quotes doubled, wrapped in
    double quotes. -/
def escapeCsvField (s : String) : String :=
  "\"" ++ String.mk (doubleQuotes s.data) ++ "\""

/-- Inverse of the quote doubling: collapse each doubled quote. -/
def undoubleQuotes : List Char → List Char
  | [] => []
  | [c] => [c]
  | c :: d :: cs =>
    if c = '"' ∧ d = '"' then '"' :: undoubleQuotes cs
    else c :: undoubleQuotes (d :: cs)

/-- Recover a raw field value from an emitted CSV field: strip the wrapping
    quotes and collapse doubled quotes. -/
def unescapeCsvField (s : String) : String :=
  String.mk (undoubleQuotes (s.data.drop 1).dropLast)

/-- `String(field)` on a value that may be absent (absent prints as the
    literal text undefined). -/
def stringOfOptQ : Option ℚ → String
  | none => "undefined"
  | some q => toString q

/-- Template interpolation of an absent-able string field. -/
def stringOfOptS : Option String → String
  | none => "undefined"
  | some s => s

/-- The Products column: per item, the populated product name (or Unknown)
    with tier and quantity; the source reads `item.tier`, a field the stored
    items do not carry (they store the tier under `packageType`), so the
    interpolation prints the literal text undefined there. -/
def csvProductsField (products : List Product) (o : Order) : String :=
  String.intercalate "; " (o.items.map (fun i =>
    (match findProductById products i.product with
     | some p => jsOrStrV p.name "Unknown"
     | none => "Unknown")
      ++ " (undefined, Qty: " ++ toString i.quantity ++ ")"))

/-- The Shipping Address column: the source interpolates
    `shippingAddress.address`, a field the stored snapshot does not carry
    (the handler stored it under `street`), so that slot prints the literal
    text undefined. -/
def csvShippingField (o : Order) : String :=
  o.shippingAddress.fullName ++ ", undefined, "
    ++ stringOfOptS o.shippingAddress.city ++ ", "
    ++ stringOfOptS o.shippingAddress.state ++ " "
    ++ stringOfOptS o.shippingAddress.zipCode

/-- The raw (pre-escaping) values of one order's CSV row, in column order. -/
def csvFields (users : List User) (products : List Product) (o : Order) :
    List String :=
  [ o.orderNumber,
    (match findUserById users o.customer with
     | some u => jsOrStrV u.name "N/A"
     | none => "N/A"),
    (match findUserById users o.customer with
     | some u => jsOrStrV u.email "N/A"
     | none => "N/A"),
    o.status,
    stringOfOptQ o.totalAmount,
    toString o.items.length,
    csvProductsField products o,
    o.createdAtDay,
    o.updatedAtDay,
    csvShippingField o,
    jsOrStrV o.shippingAddress.phone "N/A" ]

/-- The CSV header row. -/
def csvHeaders : List String :=
  ["Order Number", "Customer Name", "Customer Email", "Status",
   "Total Amount", "Items Count", "Products", "Created Date", "Updated Date",
   "Shipping Address", "Phone"]

/-- The data rows: one per stored order, in storage order. -/
def csvDataRows (users : List User) (products : List Product)
    (db : List Order) : List (List String) :=
  db.map (csvFields users products)

/-- The full emitted CSV document: header row then data rows, each field
    escaped and quote-wrapped, fields comma-joined, rows newline-joined. -/
def csvContent (users : List User) (products : List Product)
    (db : List Order) : String :=
  String.intercalate "\n"
    ((csvHeaders :: csvDataRows users products db).map (fun r =>
      String.intercalate "," (r.map escapeCsvField)))

/-! Concrete fixtures used by witnesses and counterexamples. -/

/-- A catalog product with a base tier priced at 500. -/
def productW : Product := ⟨"abcdefabcdefabcdefabcdef", "Logo Design", [("base", 500)]⟩

/-- A complete shipping input. -/
def shippingW : ShippingInput :=
  ⟨some "Asha", some "asha@example.com", some "9990001111",
   none, none, none, none, none⟩

/-- A createOrder body: one base-tier item of quantity 2. -/
def bodyW : CreateOrderBody :=
  ⟨some [⟨"abcdefabcdefabcdefabcdef", some "base", none, some 2, []⟩], some shippingW,
   some "upi", none, none, none⟩

/-- The order that body produces. -/
def orderW : Order :=
  { id := "cccccccccccccccccccccccc"
    orderNumber := "ORD-1003"
    customer := "u1"
    items := [⟨"abcdefabcdefabcdefabcdef", "base", 2, 500, []⟩]
    pricing := ⟨1000, 100, 1100⟩
    shippingAddress :=
      ⟨"Asha", "asha@example.com", "9990001111", none, none, none, none,
       "India"⟩
    paymentInfo := ⟨some "upi", none, none, "pending"⟩
    status := "pending"
    communication := []
    actualDeliveryDate := none
    taxAmount := 0
    shippingCost := 0
    totalAmount := none
    createdAtDay := "2024-01-01"
    updatedAtDay := "2024-01-01" }

/-- A stored pending order (valid ObjectId-shaped id, distinct order number). -/
def orderA : Order :=
  { orderW with id := "aaaaaaaaaaaaaaaaaaaaaaaa", orderNumber := "ORD-1001" }

/-- A stored completed order whose persisted total (1100) differs from the
    analytics recomputation over its items (1000, since taxAmount and
    shippingCost are 0). -/
def orderB : Order :=
  { orderW with
    id := "bbbbbbbbbbbbbbbbbbbbbbbb"
    orderNumber := "ORD-1002"
    status := "completed" }

/-- The order produced by completing orderA. -/
def orderA1 : Order :=
  { orderA with
    status := "completed"
    communication :=
      [⟨"u9", "Order status changed from pending to completed", "message", 5⟩]
    actualDeliveryDate := some 5
    updatedAtDay := "2024-01-02" }

/-! Theorems. -/

/-- Helper: the item loop's accumulated subtotal is the sum of price times
    quantity over the items it builds. -/
theorem resolveItems_subtotal (products : List Product) :
    ∀ (its : List ItemInput) (ois : List OrderItem) (sub : ℚ),
      resolveItems products its = .ok (ois, sub) →
      sub = (ois.map (fun i => i.price * (i.quantity : ℚ))).sum := by
  intro its
  induction its with
  | nil =>
    intro ois sub h
    simp only [resolveItems] at h
    cases h
    simp
  | cons it rest ih =>
    intro ois sub h
    simp only [resolveItems] at h
    cases hri : resolveItem products it <;> rw [hri] at h
    · cases h
    · cases hrr : resolveItems products rest <;> rw [hrr] at h
      · cases h
      · rename_i oi pr
        obtain ⟨ois', sub'⟩ := pr
        cases h
        simp [ih ois' sub' hrr]

/-- Helper: inversion of a successful createOrder: the body's items resolved,
    and the persisted order carries exactly the computed pricing, the
    resolved items, status pending, an empty log, and is appended to the
    collection. -/
theorem createOrder_ok_inv (db : List Order) (products : List Product)
    (userId : String) (body : CreateOrderBody)
    (newId newOrderNumber today : String) (o : Order) (db' : List Order)
    (h : createOrder db products userId body newId newOrderNumber today
      = (.ok o, db')) :
    ∃ its ois subtotal,
      body.items = some its
      ∧ resolveItems products its = .ok (ois, subtotal)
      ∧ o.items = ois
      ∧ o.pricing = ⟨subtotal, subtotal * (1 / 10),
          subtotal + subtotal * (1 / 10)⟩
      ∧ o.status = "pending"
      ∧ o.communication = []
      ∧ o.actualDeliveryDate = none
      ∧ db' = db ++ [o] := by
  unfold createOrder at h
  split at h
  · simp at h
  next its hits =>
    split at h
    · simp at h
    · split at h
      · simp at h
      next sa hsa =>
        split at h
        · simp at h
        · split at h
          · simp at h
          · split at h
            · simp at h
            · split at h
              · simp at h
              next ois subtotal hres =>
                refine ⟨its, ois, subtotal, hits, hres, ?_⟩
                obtain ⟨ho, hdb⟩ := Prod.mk.injEq _ _ _ _ ▸ h
                cases ho
                exact ⟨rfl, rfl, rfl, rfl, rfl, hdb.symm⟩

/-- C1: a successful createOrder persists
    subtotal = Σ item.price * item.quantity over the resolved items,
    tax = subtotal * 0.10, and total = subtotal + tax. -/
theorem createOrder_pricing_formula (db : List Order)
    (products : List Product) (userId : String) (body : CreateOrderBody)
    (newId newOrderNumber today : String) (o : Order) (db' : List Order)
    (h : createOrder db products userId body newId newOrderNumber today
      = (.ok o, db')) :
    o.pricing.subtotal
        = (o.items.map (fun i => i.price * (i.quantity : ℚ))).sum
      ∧ o.pricing.tax = o.pricing.subtotal * (1 / 10)
      ∧ o.pricing.total = o.pricing.subtotal + o.pricing.tax := by
  obtain ⟨its, ois, subtotal, _, hres, hoi, hpr, _⟩ :=
    createOrder_ok_inv db products userId body newId newOrderNumber today o
      db' h
  have hsum := resolveItems_subtotal products its ois subtotal hres
  rw [hpr, hoi]
  exact ⟨hsum, rfl, rfl⟩

/-- C1 witness: one item with tier base, unit price 500, quantity 2 yields
    subtotal 1000, tax 100, total 1100. -/
theorem createOrder_pricing_formula_witness :
    createOrder [] [productW] "u1" bodyW "cccccccccccccccccccccccc" "ORD-1003"
        "2024-01-01" = (.ok orderW, [orderW])
      ∧ orderW.pricing = ⟨1000, 100, 1100⟩
      ∧ (orderW.pricing.subtotal
          = (orderW.items.map (fun i => i.price * (i.quantity : ℚ))).sum
        ∧ orderW.pricing.tax = orderW.pricing.subtotal * (1 / 10)
        ∧ orderW.pricing.total
          = orderW.pricing.subtotal + orderW.pricing.tax) := by
  have h : createOrder [] [productW] "u1" bodyW "cccccccccccccccccccccccc"
      "ORD-1003" "2024-01-01" = (.ok orderW, [orderW]) := by
    have hv : isValidObjectId "abcdefabcdefabcdefabcdef" = true := by decide
    norm_num [createOrder, resolveItems, resolveItem, productFindById, hv,
      priceLookup, resolveTier, jsOrStr, jsOrNat, jsOrNull,
      strTruthy, productW, bodyW, shippingW, orderW]
    decide
  exact ⟨h, by decide,
    createOrder_pricing_formula [] [productW] "u1" bodyW
      "cccccccccccccccccccccccc" "ORD-1003" "2024-01-01" orderW [orderW] h⟩

/-- C2: a successful setStatus grows the communication log by exactly one
    entry, whose content is the caller's trimmed note when truthy and the
    auto-generated transition message otherwise; `actualDeliveryDate` changes
    exactly when the new status is completed and it was previously unset (so
    a second completion call leaves it unchanged while the log still grows). -/
theorem setStatus_comm_and_delivery (db : List Order)
    (role senderId key status : String) (message : Option String)
    (now : Nat) (today : String) (o' : Order) (db' : List Order)
    (h : setStatus db role senderId key status message now today
      = (.ok o', db')) :
    ∃ o, lookupOrderWithFallback db key = some o
      ∧ o'.communication.length = o.communication.length + 1
      ∧ (∀ s, message = some s → jsTrim s ≠ "" →
          o'.communication.getLast?
            = some ⟨senderId, jsTrim s, "message", now⟩)
      ∧ (message = none →
          o'.communication.getLast?
            = some ⟨senderId,
                "Order status changed from " ++ o.status ++ " to " ++ status,
                "message", now⟩)
      ∧ (o'.actualDeliveryDate ≠ o.actualDeliveryDate
          ↔ status = "completed" ∧ o.actualDeliveryDate = none)
      ∧ (status = "completed" → o.actualDeliveryDate = none →
          o'.actualDeliveryDate = some now)
      ∧ (∀ d, o.actualDeliveryDate = some d →
          o'.actualDeliveryDate = some d) := by
  simp only [setStatus] at h
  split at h
  · simp at h
  · split at h
    · simp at h
    · split at h
      · simp at h
      · split at h
        · simp at h
        next o hlook =>
          obtain ⟨ho, hdb⟩ := Prod.mk.injEq _ _ _ _ ▸ h
          cases ho
          refine ⟨o, hlook, by simp, ?_, ?_, ?_, ?_, ?_⟩
          · intro s hs hne
            subst hs
            simp [jsOrStr, hne, List.getLast?_concat]
          · intro hm
            subst hm
            simp [jsOrStr, List.getLast?_concat]
          · by_cases hc : status = "completed" ∧ o.actualDeliveryDate = none
            · simp only [hc, if_pos hc]
              simp [hc.2]
            · simp [hc]
          · intro h1 h2
            simp [h1, h2]
          · intro d hd
            have hc : ¬(status = "completed" ∧ o.actualDeliveryDate = none) := by
              simp [hd]
            simp [hc, hd]

/-- C2 witness: completing a stored pending order with no note appends the
    auto-generated entry and stamps the delivery date. -/
theorem setStatus_comm_and_delivery_witness :
    ∃ o, lookupOrderWithFallback [orderA] "aaaaaaaaaaaaaaaaaaaaaaaa" = some o
      ∧ orderA1.communication.length = o.communication.length + 1
      ∧ orderA1.actualDeliveryDate = some 5 := by
  obtain ⟨o, hl, hlen, _, _, _, hset, _⟩ :=
    setStatus_comm_and_delivery [orderA] "admin" "u9"
      "aaaaaaaaaaaaaaaaaaaaaaaa" "completed" none 5 "2024-01-02" orderA1
      [orderA1] (by decide)
  have hoa : o = orderA := by
    have h2 : lookupOrderWithFallback [orderA] "aaaaaaaaaaaaaaaaaaaaaaaa"
        = some orderA := by decide
    rw [h2] at hl
    injection hl with h3
    exact h3.symm
  exact ⟨o, hl, hlen, hset rfl (by rw [hoa]; decide)⟩

/-- C3: cancelling an order that is already completed or cancelled fails with
    the 400 illegal-state response and leaves the stored collection (hence
    the order) unmodified; cancelling in any other status forces status
    cancelled and appends exactly one role-dependent communication entry. -/
theorem cancel_terminal_and_success (db : List Order)
    (role userId key : String) (now : Nat) (today : String) (o : Order)
    (hfind : findById db key = .ok (some o))
    (hauth : role = "admin" ∨ o.customer = userId) :
    ((o.status = "completed" ∨ o.status = "cancelled") →
      cancel db role userId key now today
        = (.error
            (.validation "Order cannot be cancelled in its current status"),
           db)
      ∧ httpStatus
          (.validation "Order cannot be cancelled in its current status")
        = 400)
    ∧ (¬(o.status = "completed" ∨ o.status = "cancelled") →
      ∃ o', cancel db role userId key now today
          = (.ok o', updateOrder db o')
        ∧ o'.status = "cancelled"
        ∧ o'.communication = o.communication
            ++ [⟨userId,
                 "Order cancelled by "
                   ++ (if role = "admin" then "admin" else "customer"),
                 "message", now⟩]) := by
  have hng : ¬(role ≠ "admin" ∧ o.customer ≠ userId) := by
    rcases hauth with h | h <;> simp [h]
  constructor
  · intro hterm
    constructor
    · unfold cancel
      rw [hfind]
      simp [hng, hterm]
    · rfl
  · intro hterm
    refine ⟨{ o with
        status := "cancelled"
        communication := o.communication
          ++ [⟨userId,
               "Order cancelled by "
                 ++ (if role = "admin" then "admin" else "customer"),
               "message", now⟩]
        updatedAtDay := today }, ?_, rfl, rfl⟩
    unfold cancel
    rw [hfind]
    simp [hng, hterm]

/-- C3 witness: cancelling the completed orderB is rejected with the order
    collection untouched, and cancelling the pending orderA as admin
    succeeds. -/
theorem cancel_terminal_and_success_witness :
    (cancel [orderB] "admin" "u9" "bbbbbbbbbbbbbbbbbbbbbbbb" 7 "2024-01-03"
        = (.error
            (.validation "Order cannot be cancelled in its current status"),
           [orderB]))
    ∧ (∃ o', cancel [orderA] "admin" "u9" "aaaaaaaaaaaaaaaaaaaaaaaa" 7
          "2024-01-03" = (.ok o', updateOrder [orderA] o')
        ∧ o'.status = "cancelled"
        ∧ o'.communication = orderA.communication
            ++ [⟨"u9", "Order cancelled by admin", "message", 7⟩]) := by
  constructor
  · have h :=
      (cancel_terminal_and_success [orderB] "admin" "u9"
        "bbbbbbbbbbbbbbbbbbbbbbbb" 7 "2024-01-03" orderB (by decide)
        (Or.inl rfl)).1 (Or.inl (by decide))
    exact h.1
  · have h :=
      (cancel_terminal_and_success [orderA] "admin" "u9"
        "aaaaaaaaaaaaaaaaaaaaaaaa" 7 "2024-01-03" orderA (by decide)
        (Or.inl rfl)).2 (by decide)
    simpa using h

/-- C4: with the admin role, a status outside the enumerated set is rejected
    as a validation error for every collection state (in particular the
    rejection never depends on the order lookup); a status inside the set
    overwrites the found order's status unconditionally, whatever its current
    status. -/
theorem setStatus_validation_overwrite (db : List Order)
    (role senderId key status : String) (message : Option String)
    (now : Nat) (today : String) (hrole : role = "admin") :
    (validStatuses.contains status = false →
      setStatus db role senderId key status message now today
        = (.error (.validation "Validation failed"), db))
    ∧ (validStatuses.contains status = true →
        msgTooLong (message.map (fun s => jsTrim s)) = false →
        ∀ o, lookupOrderWithFallback db key = some o →
        ∃ o', (setStatus db role senderId key status message now today).1
            = .ok o' ∧ o'.status = status) := by
  subst hrole
  constructor
  · intro hns
    have hns' : status ∉ validStatuses := by simpa using hns
    simp [setStatus, hns']
  · intro hs hml o hlook
    have hs' : status ∈ validStatuses := by simpa using hs
    refine ⟨{ o with
        status := status
        communication := o.communication
          ++ [⟨senderId,
               jsOrStr (message.map (fun s => jsTrim s))
                 ("Order status changed from " ++ o.status ++ " to "
                   ++ status),
               "message", now⟩]
        actualDeliveryDate :=
          if status = "completed" ∧ o.actualDeliveryDate = none then some now
          else o.actualDeliveryDate
        updatedAtDay := today }, ?_, rfl⟩
    simp [setStatus, hs', hml, hlook]

/-- C4 witness: the unknown status shipped is rejected over a collection in
    which the key would resolve, and a completed order is overwritten back to
    pending. -/
theorem setStatus_validation_overwrite_witness :
    (setStatus [orderA] "admin" "u9" "aaaaaaaaaaaaaaaaaaaaaaaa" "shipped"
        none 9 "2024-01-04"
      = (.error (.validation "Validation failed"), [orderA]))
    ∧ (∃ o', (setStatus [orderB] "admin" "u9" "bbbbbbbbbbbbbbbbbbbbbbbb"
          "pending" none 9 "2024-01-04").1 = .ok o'
        ∧ o'.status = "pending") := by
  constructor
  · exact (setStatus_validation_overwrite [orderA] "admin" "u9"
      "aaaaaaaaaaaaaaaaaaaaaaaa" "shipped" none 9 "2024-01-04" rfl).1
      (by decide)
  · exact (setStatus_validation_overwrite [orderB] "admin" "u9"
      "bbbbbbbbbbbbbbbbbbbbbbbb" "pending" none 9 "2024-01-04" rfl).2
      (by decide) (by decide) orderB (by decide)

/-- Helper: createOrder either succeeds and appends exactly the new order, or
    leaves the collection unchanged. -/
theorem createOrder_result_cases (db : List Order) (products : List Product)
    (userId : String) (body : CreateOrderBody)
    (newId newOrderNumber today : String) :
    (∃ o, (createOrder db products userId body newId newOrderNumber today).1
        = .ok o
      ∧ (createOrder db products userId body newId newOrderNumber today).2
        = db ++ [o])
    ∨ ((∃ e, (createOrder db products userId body newId newOrderNumber
          today).1 = .error e)
      ∧ (createOrder db products userId body newId newOrderNumber today).2
        = db) := by
  unfold createOrder
  split
  · exact Or.inr ⟨⟨_, rfl⟩, rfl⟩
  · split
    · exact Or.inr ⟨⟨_, rfl⟩, rfl⟩
    · split
      · exact Or.inr ⟨⟨_, rfl⟩, rfl⟩
      · split
        · exact Or.inr ⟨⟨_, rfl⟩, rfl⟩
        · split
          · exact Or.inr ⟨⟨_, rfl⟩, rfl⟩
          · split
            · exact Or.inr ⟨⟨_, rfl⟩, rfl⟩
            · split
              · exact Or.inr ⟨⟨_, rfl⟩, rfl⟩
              · exact Or.inl ⟨_, rfl, rfl⟩

/-- C5: in item resolution, the tier defaults to base when neither `tier` nor
    the legacy `packageType` is supplied; quantity defaults to 1 when absent
    or falsy; a tier key that is absent from the product's price map or maps
    to a falsy price fails with the invalid-tier validation error; and on
    success the order item's price is the resolved tier price copied at call
    time. -/
theorem resolveItem_defaults_and_price (products : List Product)
    (it : ItemInput) (p : Product)
    (hp : productFindById products it.product = .ok (some p)) :
    ((it.tier = none ∧ it.packageType = none) → resolveTier it = "base")
    ∧ ((it.quantity = none ∨ it.quantity = some 0) → jsOrNat it.quantity 1 = 1)
    ∧ ((priceLookup p.price (resolveTier it) = none
        ∨ priceLookup p.price (resolveTier it) = some 0) →
        resolveItem products it
          = .error (.validation
              ("Pricing tier '" ++ resolveTier it ++ "' not found")))
    ∧ (∀ tp, priceLookup p.price (resolveTier it) = some tp → tp ≠ 0 →
        resolveItem products it
          = .ok { product := p.id
                  packageType := resolveTier it
                  quantity := jsOrNat it.quantity 1
                  price := tp
                  customizations :=
                    it.customization.map (fun kv => ⟨kv.1, kv.2⟩) }) := by
  refine ⟨?_, ?_, ?_, ?_⟩
  · intro hti
    simp [resolveTier, hti.1, hti.2, jsOrStr]
  · rintro (hq | hq) <;> simp [hq, jsOrNat]
  · rintro (hl | hl) <;>
      simp [resolveItem, hp, hl]
  · intro tp hl hne
    simp [resolveItem, hp, hl, hne]

/-- C5 witness: an item with no tier, no packageType and quantity 0 against a
    product with only a base tier resolves to tier base, quantity 1, price
    500; a premium request against the same product fails. -/
theorem resolveItem_defaults_and_price_witness :
    (resolveTier (⟨"abcdefabcdefabcdefabcdef", none, none, some 0, []⟩ : ItemInput) = "base")
    ∧ resolveItem [productW] ⟨"abcdefabcdefabcdefabcdef", none, none, some 0, []⟩
        = .ok { product := "abcdefabcdefabcdefabcdef", packageType := "base", quantity := 1,
                price := 500, customizations := [] }
    ∧ resolveItem [productW] ⟨"abcdefabcdefabcdefabcdef", some "premium", none, some 1, []⟩
        = .error (.validation "Pricing tier 'premium' not found") := by
  obtain ⟨ht, _, _, hok⟩ :=
    resolveItem_defaults_and_price [productW] ⟨"abcdefabcdefabcdefabcdef", none, none, some 0, []⟩
      productW (by decide)
  obtain ⟨_, _, herr, _⟩ :=
    resolveItem_defaults_and_price [productW]
      ⟨"abcdefabcdefabcdefabcdef", some "premium", none, some 1, []⟩ productW (by decide)
  refine ⟨ht ⟨rfl, rfl⟩, ?_, ?_⟩
  · have h := hok 500 (by decide) (by norm_num)
    simpa using h
  · have h := herr (Or.inl (by decide))
    simpa using h

/-- C6: every failing createOrder call leaves the order collection exactly as
    it was: no order document is persisted on any validation, product or
    tier failure, even when earlier items of the request resolved. -/
theorem createOrder_failure_persists_nothing (db : List Order)
    (products : List Product) (userId : String) (body : CreateOrderBody)
    (newId newOrderNumber today : String) (e : ApiError)
    (h : (createOrder db products userId body newId newOrderNumber today).1
      = .error e) :
    (createOrder db products userId body newId newOrderNumber today).2
      = db := by
  rcases createOrder_result_cases db products userId body newId
      newOrderNumber today with ⟨o, hok, _⟩ | ⟨_, hdb⟩
  · rw [hok] at h
    cases h
  · exact hdb

/-- C6 witness: a two-item request whose second item has an unknown tier
    fails after the first item resolved, and the collection is unchanged. -/
theorem createOrder_failure_persists_nothing_witness :
    ((createOrder [orderA] [productW] "u1"
        ⟨some [⟨"abcdefabcdefabcdefabcdef", some "base", none, some 1, []⟩,
               ⟨"abcdefabcdefabcdefabcdef", some "premium", none, some 1, []⟩],
         some shippingW, some "upi", none, none, none⟩
        "dddddddddddddddddddddddd" "ORD-1004" "2024-01-05").1
      = .error (.validation "Pricing tier 'premium' not found"))
    ∧ (createOrder [orderA] [productW] "u1"
        ⟨some [⟨"abcdefabcdefabcdefabcdef", some "base", none, some 1, []⟩,
               ⟨"abcdefabcdefabcdefabcdef", some "premium", none, some 1, []⟩],
         some shippingW, some "upi", none, none, none⟩
        "dddddddddddddddddddddddd" "ORD-1004" "2024-01-05").2
      = [orderA] := by
  have h1 : (createOrder [orderA] [productW] "u1"
      ⟨some [⟨"abcdefabcdefabcdefabcdef", some "base", none, some 1, []⟩,
             ⟨"abcdefabcdefabcdefabcdef", some "premium", none, some 1, []⟩],
       some shippingW, some "upi", none, none, none⟩
      "dddddddddddddddddddddddd" "ORD-1004" "2024-01-05").1
      = .error (.validation "Pricing tier 'premium' not found") := by
    decide
  exact ⟨h1,
    createOrder_failure_persists_nothing [orderA] [productW] "u1" _
      "dddddddddddddddddddddddd" "ORD-1004" "2024-01-05" _ h1⟩

/-- C10: createOrder guards only the individual shipping fields: when the
    body passes the items check but carries no shippingAddress object at
    all, the handler's field access throws and the request is answered by
    the generic 500 branch, not a 400 validation response; when a
    shippingAddress object is present, the shipping-field checks can only
    produce 400s — any 500 outcome is attributable to the item loop (the
    CastError thrown by `Product.findById` on a non-castable reference),
    never to the shipping-field checks. -/
theorem createOrder_missing_shipping_is_500 (db : List Order)
    (products : List Product) (userId : String) (body : CreateOrderBody)
    (newId newOrderNumber today : String) (its : List ItemInput)
    (hits : body.items = some its) (hne : its ≠ []) :
    (body.shippingAddress = none →
      createOrder db products userId body newId newOrderNumber today
        = (.error .serverError, db))
    ∧ (∀ sa, body.shippingAddress = some sa →
        (createOrder db products userId body newId newOrderNumber today).1
          = .error .serverError →
        resolveItems products its = .error .serverError) := by
  have hemp : its.isEmpty = false := by
    cases its
    · exact absurd rfl hne
    · rfl
  constructor
  · intro hsa
    simp [createOrder, hits, hemp, hsa]
  · intro sa hsa hres
    simp only [createOrder, hits, hemp, hsa, Bool.false_eq_true,
      if_false] at hres
    split at hres
    · simp at hres
    · split at hres
      · simp at hres
      · split at hres
        · simp at hres
        · split at hres
          next e h =>
            simp at hres
            rw [h, hres]
          next ois subtotal h =>
            simp at hres

/-- Helper: updating the stored pricing record of every order changes none
    of the dashboard analytics revenue figures, which recompute revenue from
    items, taxAmount and shippingCost. -/
theorem pricing_map_invariant (db : List Order) (g : Order → Pricing) :
    analyticsTotalRevenue (db.map (fun o => { o with pricing := g o }))
      = analyticsTotalRevenue db
    ∧ analyticsRevenueDaily (db.map (fun o => { o with pricing := g o }))
      = analyticsRevenueDaily db
    ∧ analyticsRevenueMonthly (db.map (fun o => { o with pricing := g o }))
      = analyticsRevenueMonthly db := by
  refine ⟨?_, ?_, ?_⟩
  · unfold analyticsTotalRevenue
    rw [List.map_map]
    exact rfl
  · have hdays :
        orderDays (db.map (fun o => { o with pricing := g o }))
          = orderDays db := by
      unfold orderDays
      rw [List.map_map]
      exact rfl
    simp only [analyticsRevenueDaily, hdays]
    refine List.map_congr_left ?_
    intro d _
    rw [List.filter_map, List.map_map]
    exact rfl
  · have hproj : ∀ o : Order,
        (Order.createdAtDay { o with pricing := g o }) = o.createdAtDay :=
      fun _ => rfl
    have hmonths :
        orderMonths (db.map (fun o => { o with pricing := g o }))
          = orderMonths db := by
      unfold orderMonths
      rw [List.map_map]
      refine congrArg List.dedup ?_
      refine List.map_congr_left ?_
      intro o _
      simp only [Function.comp_apply]
    simp only [analyticsRevenueMonthly, hmonths]
    refine List.map_congr_left ?_
    intro m _
    rw [List.filter_map, List.map_map]
    have hfeq :
        List.filter ((fun o : Order => decide (o.createdAtDay.take 7 = m))
            ∘ (fun o => { o with pricing := g o })) db
          = List.filter
              (fun o : Order => decide (o.createdAtDay.take 7 = m)) db := by
      refine List.filter_congr ?_
      intro o _
      simp only [Function.comp_apply]
    rw [hfeq]
    have hmapeq :
        List.map (recomputedTotal ∘ (fun o => { o with pricing := g o }))
            (List.filter
              (fun o : Order => decide (o.createdAtDay.take 7 = m)) db)
          = List.map recomputedTotal
              (List.filter
                (fun o : Order => decide (o.createdAtDay.take 7 = m)) db) :=
      List.map_congr_left (fun o _ => rfl)
    rw [hmapeq]

/-- C7 counterexample: for the stored completed order orderB, whose persisted
    total is 1100 while the item/tax/shipping recomputation gives 1000, the
    admin order-stats revenue equals the stored `pricing.total` and differs
    from the formula the claim asserts for every revenue figure. -/
theorem adminStats_reads_stored_total_cex :
    adminStatsTotalRevenue [orderB] = 1100
    ∧ (orderB.items.map (fun i => i.price * (i.quantity : ℚ))).sum
        + orderB.taxAmount + orderB.shippingCost = 1000
    ∧ adminStatsTotalRevenue [orderB]
        ≠ (orderB.items.map (fun i => i.price * (i.quantity : ℚ))).sum
          + orderB.taxAmount + orderB.shippingCost := by
  refine ⟨?_, ?_, ?_⟩ <;>
    norm_num [adminStatsTotalRevenue, orderB, orderW, recomputedTotal]

/-- C7 amended: the dashboard analytics revenue figures (daily, monthly and
    total) are insensitive to the stored pricing record — they recompute
    revenue from items, taxAmount and shippingCost at read time — but the
    admin order-stats revenue is not: it reads the stored `pricing.total`
    (as does its monthly trend), so it is not computed by the recomputation
    formula. -/
theorem analytics_revenue_sources :
    (∀ (db : List Order) (g : Order → Pricing),
      analyticsTotalRevenue (db.map (fun o => { o with pricing := g o }))
        = analyticsTotalRevenue db
      ∧ analyticsRevenueDaily (db.map (fun o => { o with pricing := g o }))
        = analyticsRevenueDaily db
      ∧ analyticsRevenueMonthly (db.map (fun o => { o with pricing := g o }))
        = analyticsRevenueMonthly db)
    ∧ ¬(∀ (db : List Order) (g : Order → Pricing),
        adminStatsTotalRevenue (db.map (fun o => { o with pricing := g o }))
          = adminStatsTotalRevenue db)
    ∧ ¬(∀ (db : List Order) (g : Order → Pricing) (month : String),
        adminStatsTrendRevenue (db.map (fun o => { o with pricing := g o }))
            month
          = adminStatsTrendRevenue db month) := by
  refine ⟨pricing_map_invariant, ?_, ?_⟩
  · intro hall
    have h := hall [orderB] (fun _ => ⟨0, 0, 0⟩)
    norm_num [adminStatsTotalRevenue, orderB, orderW] at h
  · intro hall
    have h := hall [orderB] (fun _ => ⟨0, 0, 0⟩)
      (Order.createdAtDay orderB |>.take 7)
    norm_num [adminStatsTrendRevenue, orderB, orderW] at h

/-- C8 counterexample: the cancel handler does not fall back to the order
    number: with a stored order whose order number is ORD-1001, cancelling by
    that order number fails in the catch-all 500 branch (the key is not
    castable to a system identifier) instead of finding the order. -/
theorem cancel_ignores_orderNumber_cex :
    findByOrderNumber [orderA] "ORD-1001" = some orderA
    ∧ cancel [orderA] "admin" "u9" "ORD-1001" 3 "2024-01-06"
        = (.error .serverError, [orderA]) := by
  constructor <;> decide

/-- C8 amended: only the status-update handler accepts the order number
    interchangeably with the system identifier (its lookup falls back to the
    order number); cancel and addMessage look up by the system identifier
    alone, and a key that is not castable to one makes them fail with the
    500 branch without ever consulting order numbers. -/
theorem lookup_fallback_only_setStatus (db : List Order) (key : String)
    (hkey : isValidObjectId key = false) :
    lookupOrderWithFallback db key = findByOrderNumber db key
    ∧ (∀ role userId now today,
        cancel db role userId key now today = (.error .serverError, db))
    ∧ (∀ role userId message mtype now,
        1 ≤ (jsTrim message).length → (jsTrim message).length ≤ 1000 →
        commTypeInvalid mtype = false →
        addMessage db role userId key message mtype now
          = (.error .serverError, db)) := by
  refine ⟨?_, ?_, ?_⟩
  · simp [lookupOrderWithFallback, findById, hkey]
  · intro role userId now today
    simp [cancel, findById, hkey]
  · intro role userId message mtype now h1 h2 h3
    have h0 : ¬(jsTrim message).length = 0 := by omega
    simp [addMessage, h0, h2, h3, findById, hkey]

/-- C8 witness: with the stored orderA, the status-update lookup by order
    number falls back and finds it, while addMessage by the same key lands
    in the 500 branch. -/
theorem lookup_fallback_only_setStatus_witness :
    lookupOrderWithFallback [orderA] "ORD-1001" = some orderA
    ∧ addMessage [orderA] "admin" "u9" "ORD-1001" "hello" none 3
        = (.error .serverError, [orderA]) := by
  obtain ⟨h1, _, h3⟩ :=
    lookup_fallback_only_setStatus [orderA] "ORD-1001" (by decide)
  refine ⟨?_, h3 "admin" "u9" "hello" none 3 (by decide) (by decide)
    (by decide)⟩
  rw [h1]
  decide

/-- Helper: quote doubling never produces the empty list from a nonempty
    one. -/
theorem doubleQuotes_eq_nil_iff (cs : List Char) :
    doubleQuotes cs = [] ↔ cs = [] := by
  cases cs with
  | nil => simp [doubleQuotes]
  | cons c cs =>
    constructor
    · intro h
      by_cases hc : c = '"' <;> simp [doubleQuotes, hc] at h
    · intro h
      cases h

/-- Helper: collapsing doubled quotes undoes the doubling. -/
theorem undouble_double (cs : List Char) :
    undoubleQuotes (doubleQuotes cs) = cs := by
  induction cs with
  | nil => rfl
  | cons c cs ih =>
    by_cases hc : c = '"'
    · subst hc
      simp [doubleQuotes, undoubleQuotes, ih]
    · simp only [doubleQuotes, if_neg hc]
      cases hd : doubleQuotes cs with
      | nil =>
        have hnil : cs = [] := (doubleQuotes_eq_nil_iff cs).mp hd
        subst hnil
        rfl
      | cons d rest =>
        simp only [undoubleQuotes]
        have hcd : ¬(c = '"' ∧ d = '"') := fun hx => hc hx.1
        rw [if_neg hcd, ← hd, ih]

/-- Helper: the characters of an escaped field are the wrapping quotes
    around the doubled raw characters. -/
theorem escapeCsvField_data (s : String) :
    (escapeCsvField s).data = '"' :: doubleQuotes s.data ++ ['"'] := by
  unfold escapeCsvField
  rw [String.data_append, String.data_append]
  rfl

/-- C9: the CSV export emits exactly one data row per stored order, the i-th
    row being the field list of the i-th stored order, and field escaping is
    a lossless quote-wrap: the emitted field starts and ends with a double
    quote and unescaping (strip the wrap, collapse doubled quotes) recovers
    the raw value. -/
theorem csv_rows_and_escape (users : List User) (products : List Product)
    (db : List Order) :
    (csvDataRows users products db).length = db.length
    ∧ (∀ i : Nat, (csvDataRows users products db)[i]?
        = (db[i]?).map (csvFields users products))
    ∧ (∀ s : String, unescapeCsvField (escapeCsvField s) = s
        ∧ (escapeCsvField s).data.head? = some '"'
        ∧ (escapeCsvField s).data.getLast? = some '"') := by
  refine ⟨by simp [csvDataRows], ?_, ?_⟩
  · intro i
    simp [csvDataRows, List.getElem?_map]
  · intro s
    refine ⟨?_, ?_, ?_⟩
    · rw [unescapeCsvField, escapeCsvField_data]
      show String.mk (undoubleQuotes ((doubleQuotes s.data ++ ['"']).dropLast))
        = s
      rw [List.dropLast_concat, undouble_double]
    · rw [escapeCsvField_data]
      rfl
    · rw [escapeCsvField_data]
      exact List.getLast?_concat _

/-- C9 witness: two stored orders yield two rows, the second being orderB's
    fields, and a field containing quotes round-trips. -/
theorem csv_rows_and_escape_witness :
    (csvDataRows [] [productW] [orderA, orderB]).length = 2
    ∧ (csvDataRows [] [productW] [orderA, orderB])[1]?
        = some (csvFields [] [productW] orderB)
    ∧ unescapeCsvField (escapeCsvField "say \"hi\"") = "say \"hi\"" := by
  obtain ⟨h1, h2, h3⟩ := csv_rows_and_escape [] [productW] [orderA, orderB]
  refine ⟨h1, ?_, (h3 "say \"hi\"").1⟩
  rw [h2 1]
  rfl

/-- C10 witness: a body with one item and no shippingAddress object is
    answered by the 500 branch; with the shippingAddress present but a
    non-castable product reference, the 500 outcome is attributed to the
    item loop. -/
theorem createOrder_missing_shipping_is_500_witness :
    createOrder [] [] "u1"
        ⟨some [⟨"zzz", some "base", none, some 1, []⟩], none, some "upi",
         none, none, none⟩
        "eeeeeeeeeeeeeeeeeeeeeeee" "ORD-1005" "2024-01-07"
      = (.error .serverError, [])
    ∧ resolveItems [] [⟨"zzz", some "base", none, some 1, []⟩]
        = .error .serverError := by
  have h := createOrder_missing_shipping_is_500 [] [] "u1"
    ⟨some [⟨"zzz", some "base", none, some 1, []⟩], none, some "upi", none,
     none, none⟩
    "eeeeeeeeeeeeeeeeeeeeeeee" "ORD-1005" "2024-01-07"
    [⟨"zzz", some "base", none, some 1, []⟩] rfl (by simp)
  have h2 := createOrder_missing_shipping_is_500 [] [] "u1"
    ⟨some [⟨"zzz", some "base", none, some 1, []⟩], some shippingW,
     some "upi", none, none, none⟩
    "eeeeeeeeeeeeeeeeeeeeeeee" "ORD-1005" "2024-01-07"
    [⟨"zzz", some "base", none, some 1, []⟩] rfl (by simp)
  exact ⟨h.1 rfl, h2.2 shippingW rfl (by decide)⟩

end SGD
